import Mathlib

/-!
Verification of the WhatsApp gateway server (session registry, connection
lifecycle controller, webhook dispatcher) as a shallow embedding in Lean 4.

The embedding mirrors `server.ts` of the repository: the `sessions` Map, the
`connection.update` / `messages.upsert` handlers, the HTTP routes for session
create/delete, and the `sendWebhook` function (envelope construction and
HMAC-SHA256 signing).
-/

namespace Crypto

/-- Truncate to 32 bits (`>>> 0` semantics of 32-bit words). -/
def w32 (n : Nat) : Nat := n % 4294967296

/-- Rotate a 32-bit word right by `n` bits. -/
def rotr32 (n x : Nat) : Nat := w32 ((x >>> n) ||| (x <<< (32 - n)))

def bigSigma0 (x : Nat) : Nat := (rotr32 2 x) ^^^ (rotr32 13 x) ^^^ (rotr32 22 x)

def bigSigma1 (x : Nat) : Nat := (rotr32 6 x) ^^^ (rotr32 11 x) ^^^ (rotr32 25 x)

def smallSigma0 (x : Nat) : Nat := (rotr32 7 x) ^^^ (rotr32 18 x) ^^^ (x >>> 3)

def smallSigma1 (x : Nat) : Nat := (rotr32 17 x) ^^^ (rotr32 19 x) ^^^ (x >>> 10)

def ch (x y z : Nat) : Nat := (x &&& y) ^^^ ((x ^^^ 4294967295) &&& z)

def maj (x y z : Nat) : Nat := (x &&& y) ^^^ (x &&& z) ^^^ (y &&& z)

/-- The 64 SHA-256 round constants (FIPS 180-4 §4.2.2, written in decimal). -/
def sha256K : List Nat :=
  [1116352408, 1899447441, 3049323471, 3921009573,
   961987163, 1508970993, 2453635748, 2870763221,
   3624381080, 310598401, 607225278, 1426881987,
   1925078388, 2162078206, 2614888103, 3248222580,
   3835390401, 4022224774, 264347078, 604807628,
   770255983, 1249150122, 1555081692, 1996064986,
   2554220882, 2821834349, 2952996808, 3210313671,
   3336571891, 3584528711, 113926993, 338241895,
   666307205, 773529912, 1294757372, 1396182291,
   1695183700, 1986661051, 2177026350, 2456956037,
   2730485921, 2820302411, 3259730800, 3345764771,
   3516065817, 3600352804, 4094571909, 275423344,
   430227734, 506948616, 659060556, 883997877,
   958139571, 1322822218, 1537002063, 1747873779,
   1955562222, 2024104815, 2227730452, 2361852424,
   2428436474, 2756734187, 3204031479, 3329325298]

/-- The SHA-256 initial hash state (FIPS 180-4 §5.3.3, in decimal). -/
def sha256H0 : List Nat :=
  [1779033703, 3144134277, 1013904242, 2773480762,
   1359893119, 2600822924, 528734635, 1541459225]

/-- `k` bytes of `n`, big-endian. -/
def beBytes (k n : Nat) : List Nat :=
  (List.range k).map (fun i => (n >>> (8 * (k - 1 - i))) % 256)

/-- SHA-256 padding: append `0x80`, zero bytes, and the 64-bit big-endian bit length. -/
def sha256Pad (msg : List Nat) : List Nat :=
  msg ++ [128] ++ List.replicate ((64 - ((msg.length + 9) % 64)) % 64) 0 ++ beBytes 8 (8 * msg.length)

/-- Split a padded message into 64-byte blocks. -/
def sha256Blocks (p : List Nat) : List (List Nat) :=
  (List.range (p.length / 64)).map (fun i => (p.drop (64 * i)).take 64)

/-- The 16 initial 32-bit message-schedule words of a 64-byte block (big-endian). -/
def blockWords (b : List Nat) : List Nat :=
  (List.range 16).map (fun i =>
    b.getD (4 * i) 0 * 16777216 + b.getD (4 * i + 1) 0 * 65536 +
    b.getD (4 * i + 2) 0 * 256 + b.getD (4 * i + 3) 0)

/-- Extend 16 schedule words to 64. -/
def extendW (ws : List Nat) : List Nat :=
  (List.range 48).foldl (fun w _ =>
    let i := w.length
    w ++ [w32 (smallSigma1 (w.getD (i - 2) 0) + w.getD (i - 7) 0 +
               smallSigma0 (w.getD (i - 15) 0) + w.getD (i - 16) 0)]) ws

/-- One SHA-256 compression step over a 64-byte block. -/
def compressBlock (hs : List Nat) (block : List Nat) : List Nat :=
  let w := extendW (blockWords block)
  let init := (hs.getD 0 0, hs.getD 1 0, hs.getD 2 0, hs.getD 3 0,
               hs.getD 4 0, hs.getD 5 0, hs.getD 6 0, hs.getD 7 0)
  let fin := (List.range 64).foldl (fun s i =>
    let (a, b, c, d, e, f, g, h) := s
    let t1 := w32 (h + bigSigma1 e + ch e f g + sha256K.getD i 0 + w.getD i 0)
    let t2 := w32 (bigSigma0 a + maj a b c)
    (w32 (t1 + t2), a, b, c, w32 (d + t1), e, f, g)) init
  let (a, b, c, d, e, f, g, h) := fin
  [w32 (hs.getD 0 0 + a), w32 (hs.getD 1 0 + b), w32 (hs.getD 2 0 + c), w32 (hs.getD 3 0 + d),
   w32 (hs.getD 4 0 + e), w32 (hs.getD 5 0 + f), w32 (hs.getD 6 0 + g), w32 (hs.getD 7 0 + h)]

/-- SHA-256 digest (32 bytes) of a byte list. -/
def sha256Bytes (msg : List Nat) : List Nat :=
  (((sha256Blocks (sha256Pad msg)).foldl compressBlock sha256H0).map (beBytes 4)).flatten

def hexDigit (n : Nat) : Char :=
  if n < 10 then Char.ofNat (48 + n) else Char.ofNat (87 + n)

def bytesToHex (bs : List Nat) : String :=
  String.mk (bs.flatMap (fun b => [hexDigit (b / 16), hexDigit (b % 16)]))

/-- Bytes of a string; agrees with UTF-8 on the ASCII inputs used here. -/
def strBytes (s : String) : List Nat := s.data.map Char.toNat

/-- HMAC-SHA256 (`crypto.createHmac('sha256', key).update(msg).digest()`). -/
def hmacSha256 (key msg : List Nat) : List Nat :=
  let k0 := if key.length > 64 then sha256Bytes key else key
  let k := k0 ++ List.replicate (64 - k0.length) 0
  let ipadded := k.map (fun b => b ^^^ 54)
  let opadded := k.map (fun b => b ^^^ 92)
  sha256Bytes (opadded ++ sha256Bytes (ipadded ++ msg))

/-- Hex HMAC-SHA256 of string key and message (`.digest('hex')`). -/
def hmacSha256Hex (key msg : String) : String :=
  bytesToHex (hmacSha256 (strBytes key) (strBytes msg))

set_option maxRecDepth 100000

-- FIPS 180-4 test vector: SHA-256("abc").
example : bytesToHex (sha256Bytes (strBytes "abc")) =
    "ba7816bf8f01cfea414140de5dae2223b00361a396177a9cb410ff61f20015ad" := by decide

end Crypto

namespace Webhook

/-- `WEBHOOK_CONFIG`: destination URL and shared HMAC secret. -/
structure WebhookConfig where
  url : String
  secret : String
  deriving DecidableEq

/-- The default `WEBHOOK_CONFIG` values of the server. -/
def defaultConfig : WebhookConfig where
  url := "https://a21e23209781.ngrok-free.app/api/whatsapp/webhook"
  secret := "e6cff8cd6752c81bb58718052175c4bfda4a3f7ea5ed13bd208d7473bc6157ab"

/-- `JSON.stringify` of the envelope `\x7bsessionId, event, data, timestamp\x7d`,
keys in insertion order; `dataJson` is the already-serialized `data` value. -/
def envelopeJson (sessionId event dataJson timestamp : String) : String :=
  "\x7b\"sessionId\":\"" ++ sessionId ++ "\",\"event\":\"" ++ event ++
  "\",\"data\":" ++ dataJson ++ ",\"timestamp\":\"" ++ timestamp ++ "\"\x7d"

/-- The single HTTP POST attempt `sendWebhook` makes via `axios.post`. -/
structure HttpRequest where
  url : String
  body : String
  contentType : String
  signatureHeader : String
  timeoutMs : Nat
  deriving DecidableEq

/-- Envelope construction and signing part of `sendWebhook`: the payload, its
hex HMAC-SHA256 signature under the configured secret in the
`x-webhook-signature` header, the configured URL, and the 5000 ms timeout. -/
def buildRequest (cfg : WebhookConfig) (event dataJson sessionId timestamp : String) :
    HttpRequest :=
  let payload := envelopeJson sessionId event dataJson timestamp
  let signature := Crypto.hmacSha256Hex cfg.secret payload
  { url := cfg.url, body := payload, contentType := "application/json",
    signatureHeader := signature, timeoutMs := 5000 }

/-- Outcome of the POST attempt, as observed by the caller of `axios.post`. -/
inductive DeliveryOutcome
  | delivered (status : Nat)
  | timeout
  | connectionRefused
  | httpError (status : Nat)
  deriving DecidableEq

/-- Everything except a 2xx delivery makes `axios.post` reject. -/
def DeliveryOutcome.isFailure : DeliveryOutcome → Bool
  | .delivered _ => false
  | _ => true

/-- `axios.post`: resolves on a 2xx response, rejects (throws) on timeout,
connection refusal, or a non-2xx status. -/
def axiosPost (out : DeliveryOutcome) : Except String Unit :=
  match out with
  | .delivered _ => .ok ()
  | .timeout => .error "timeout of 5000ms exceeded"
  | .connectionRefused => .error "ECONNREFUSED"
  | .httpError s => .error ("Request failed with status code " ++ toString s)

/-- What a call to `sendWebhook` did: the one request attempted and the line
logged afterwards. -/
structure DispatchResult where
  request : HttpRequest
  attempts : Nat
  logLine : String
  deriving DecidableEq

/-- `sendWebhook(event, data, sessionId)`: builds and signs the envelope and
makes exactly one POST attempt inside try/catch; the catch turns every
delivery error into a logged line, so the function itself never rejects
(the error component of the `Except` is never produced). -/
def sendWebhook (cfg : WebhookConfig) (event dataJson sessionId timestamp : String)
    (out : DeliveryOutcome) : Except String DispatchResult :=
  let req := buildRequest cfg event dataJson sessionId timestamp
  match axiosPost out with
  | .ok _ => .ok { request := req, attempts := 1, logLine := "Webhook sent successfully" }
  | .error _ => .ok { request := req, attempts := 1, logLine := "Failed to send webhook" }

end Webhook

namespace Messages

/-- `m.key` of a WAMessage: `fromMe` marks messages authored by this session. -/
structure MsgKey where
  fromMe : Bool
  remoteJid : String
  msgId : String
  deriving DecidableEq

/-- An element of `event.messages` in a `messages.upsert` event. `message` is
`none` when the message carries no content (`m.message` null/undefined). -/
structure WAMessage where
  key : MsgKey
  message : Option String
  messageTimestamp : Nat
  pushName : Option String
  deriving DecidableEq

/-- Payload of one `message` webhook event:
`\x7bkey, message, messageTimestamp, pushName\x7d`. -/
structure MessagePayload where
  key : MsgKey
  message : String
  messageTimestamp : Nat
  pushName : Option String
  deriving DecidableEq

/-- The body of the `messages.upsert` loop for one message: a webhook payload
is produced iff `!m.key.fromMe && m.message`. -/
def upsertEmit (m : WAMessage) : Option MessagePayload :=
  match m.key.fromMe, m.message with
  | false, some c =>
    some { key := m.key, message := c, messageTimestamp := m.messageTimestamp,
           pushName := m.pushName }
  | _, _ => none

/-- The `messages.upsert` handler: iterate over `event.messages` in order,
sending one `message` webhook per message that passes the filter. -/
def messagesUpsertHandler : List WAMessage → List MessagePayload
  | [] => []
  | m :: rest =>
    match upsertEmit m with
    | some p => p :: messagesUpsertHandler rest
    | none => messagesUpsertHandler rest

/-- A message from another party that carries no content (`m.message` is
null — e.g. a protocol/stub entry of `messages.upsert`). -/
def contentlessInbound : WAMessage where
  key := { fromMe := false, remoteJid := "123@s.whatsapp.net", msgId := "A1" }
  message := none
  messageTimestamp := 5
  pushName := some "Alice"

/-- An ordinary inbound text message from another party. -/
def contentfulInbound : WAMessage where
  key := { fromMe := false, remoteJid := "456@s.whatsapp.net", msgId := "B2" }
  message := some "hello"
  messageTimestamp := 7
  pushName := some "Bob"

end Messages

namespace Server

/-- In-memory `Session` record, the value type of the `sessions` Map.
`hasSock` models `sock !== null`. -/
structure SessionRec where
  id : String
  hasSock : Bool
  qrCode : Option String
  status : String
  deriving DecidableEq

/-- The legacy module-level globals kept for the `'default'` session
(`connectionStatus`, `qrCode`; the `sock` global is covered by the record). -/
structure Globals where
  connectionStatus : String
  qrCode : Option String
  deriving DecidableEq

/-- The `sessions` Map, in insertion order (JS Map semantics). -/
abbrev Registry := List (String × SessionRec)

/-- `sessions.has(k)`. -/
def regHas : Registry → String → Bool
  | [], _ => false
  | p :: r, k => p.1 == k || regHas r k

/-- `sessions.get(k)`: the value stored at key `k`. -/
def regGet : Registry → String → Option SessionRec
  | [], _ => none
  | p :: r, k => if p.1 == k then some p.2 else regGet r k

/-- Overwrite the value at key `k` in place. -/
def regSetAll : Registry → String → SessionRec → Registry
  | [], _, _ => []
  | p :: r, k, v => (if p.1 == k then (k, v) else p) :: regSetAll r k v

/-- `sessions.set(k, v)`: overwrite in place when the key exists, else append
(JS Map insertion-order semantics). -/
def regSet (r : Registry) (k : String) (v : SessionRec) : Registry :=
  if regHas r k then regSetAll r k v else r ++ [(k, v)]

/-- `sessions.delete(k)`: drop the entry keyed `k`. -/
def regDelete : Registry → String → Registry
  | [], _ => []
  | p :: r, k => if p.1 == k then regDelete r k else p :: regDelete r k

/-- Whole-server state: the registry, the legacy globals, and the session ids
with a pending `setTimeout` reconnect. -/
structure ServerState where
  sessions : Registry
  globals : Globals
  pending : List String
  deriving DecidableEq

/-- Module-load state: empty registry, `connectionStatus = 'disconnected'`,
`qrCode = null`, no timers. -/
def initialState : ServerState where
  sessions := []
  globals := { connectionStatus := "disconnected", qrCode := none }
  pending := []

/-- `data` argument of the `sendWebhook` calls made by the lifecycle handler. -/
inductive WebhookData
  | qrPayload (q : String)
  | disconnectReason (statusCode : Option Nat)
  | connectedPayload (sid : String)
  deriving DecidableEq

/-- Observable side effects of one handler/route execution, in program order. -/
inductive Effect
  | credsLoaded (folder : String)
  | registryInserted (sid : String)
  | recordStatusSet (sid status : String)
  | qrStored (sid : String)
  | webhookSent (event sid : String) (data : WebhookData)
  | reconnectScheduled (sid : String) (delayMs : Nat)
  | registryDeleted (sid : String)
  deriving DecidableEq

/-- The `connection` field of a `connection.update` event. -/
inductive ConnState
  | opened
  | closed
  | connecting
  deriving DecidableEq

/-- A `connection.update` payload: optional QR, optional connection state, and
`(lastDisconnect?.error as Boom)?.output?.statusCode`. -/
structure ConnUpdate where
  qr : Option String
  connection : Option ConnState
  statusCode : Option Nat
  deriving DecidableEq

/-- `DisconnectReason.loggedOut`. -/
def loggedOutCode : Nat := 401

/-- `shouldReconnect = statusCode !== DisconnectReason.loggedOut` (an absent
error/status compares unequal, hence reconnects). -/
def shouldReconnect (u : ConnUpdate) : Bool := u.statusCode != some loggedOutCode

/-- Auth folder chosen by `initializeWhatsApp` for this session's credentials. -/
def authFolder (sid : String) : String :=
  if sid == "default" then "baileys_auth_info" else "baileys_auth_" ++ sid

/-- The record `initializeWhatsApp` builds and stores: fresh socket, no QR,
`status: 'connecting'`. -/
def freshRecord (sid : String) : SessionRec where
  id := sid
  hasSock := true
  qrCode := none
  status := "connecting"

/-- `initializeWhatsApp(sessionId)`: load persisted credentials from the
per-session auth folder, make a socket, store a fresh record via
`sessions.set`. For `'default'` it updates the `sock` global but touches
neither `connectionStatus` nor the `qrCode` global. -/
def initializeWhatsApp (st : ServerState) (sid : String) : ServerState × List Effect :=
  ({ st with sessions := regSet st.sessions sid (freshRecord sid) },
   [.credsLoaded (authFolder sid), .registryInserted sid])

/-- The `connection.update` handler, mirrored branch for branch: the `qr`
branch first, then `close` (reconnect or terminal delete by
`shouldReconnect`), `open`, `connecting`. Globals are mirrored only when
`sessionId === 'default'`. A stale handler whose session is no longer
registered is modelled as a no-op. -/
def handlerStep (st : ServerState) (sid : String) (u : ConnUpdate) :
    ServerState × List Effect :=
  match regGet st.sessions sid with
  | none => (st, [])
  | some rec =>
    let isDefault := sid == "default"
    let rec1 := match u.qr with
      | some q => { rec with qrCode := some q }
      | none => rec
    let gl1 := match u.qr with
      | some q => if isDefault then { st.globals with qrCode := some q } else st.globals
      | none => st.globals
    let eff1 : List Effect := match u.qr with
      | some q => [.qrStored sid, .webhookSent "qr" sid (.qrPayload q)]
      | none => []
    match u.connection with
    | some .closed =>
      let rec2 := { rec1 with status := "disconnected" }
      let gl2 := if isDefault then { gl1 with connectionStatus := "disconnected" } else gl1
      if shouldReconnect u then
        ({ st with sessions := regSet st.sessions sid rec2, globals := gl2,
                   pending := st.pending ++ [sid] },
         eff1 ++ [.recordStatusSet sid "disconnected",
                  .webhookSent "disconnected" sid (.disconnectReason u.statusCode),
                  .reconnectScheduled sid 3000])
      else
        ({ st with sessions := regDelete st.sessions sid, globals := gl2 },
         eff1 ++ [.recordStatusSet sid "disconnected",
                  .webhookSent "disconnected" sid (.disconnectReason u.statusCode),
                  .registryDeleted sid])
    | some .opened =>
      let rec2 := { rec1 with status := "connected", qrCode := none }
      let gl2 := if isDefault then { gl1 with connectionStatus := "connected", qrCode := none }
                 else gl1
      ({ st with sessions := regSet st.sessions sid rec2, globals := gl2 },
       eff1 ++ [.recordStatusSet sid "connected",
                .webhookSent "connected" sid (.connectedPayload sid)])
    | some .connecting =>
      let rec2 := { rec1 with status := "connecting" }
      let gl2 := if isDefault then { gl1 with connectionStatus := "connecting" } else gl1
      ({ st with sessions := regSet st.sessions sid rec2, globals := gl2 },
       eff1 ++ [.recordStatusSet sid "connecting"])
    | none =>
      ({ st with sessions := regSet st.sessions sid rec1, globals := gl1 }, eff1)

/-- HTTP response, reduced to the status code and the `status` field of the
JSON body when the route sends one. -/
structure RouteResponse where
  code : Nat
  bodyStatus : Option String
  deriving DecidableEq

/-- `POST /api/sessions/create`: 409 when the id exists (registry untouched);
otherwise run `initializeWhatsApp` and answer 200 with `status:
'initializing'` in the body. -/
def createRoute (st : ServerState) (sid : String) :
    ServerState × RouteResponse × List Effect :=
  if regHas st.sessions sid then
    (st, { code := 409, bodyStatus := none }, [])
  else
    let (st', effs) := initializeWhatsApp st sid
    (st', { code := 200, bodyStatus := some "initializing" }, effs)

/-- `DELETE /api/sessions/:sessionId`: 404 when absent; otherwise `await
session.sock.logout()` then `sessions.delete`. `logoutFails` says whether the
logout call rejects — the route's try/catch then answers 500 and the
`sessions.delete` line is never reached. -/
def deleteRoute (st : ServerState) (sid : String) (logoutFails : Bool) :
    ServerState × RouteResponse :=
  match regGet st.sessions sid with
  | none => (st, { code := 404, bodyStatus := none })
  | some rec =>
    if rec.hasSock && logoutFails then
      (st, { code := 500, bodyStatus := none })
    else
      ({ st with sessions := regDelete st.sessions sid }, { code := 200, bodyStatus := none })

/-- A pending `setTimeout(() => initializeWhatsApp(sessionId), 3000)` timer
fires: it reruns `initializeWhatsApp` unconditionally — there is no check of
the registry or any "closing" mark. -/
def fireReconnect (st : ServerState) (sid : String) : ServerState × List Effect :=
  if sid ∈ st.pending then
    initializeWhatsApp { st with pending := st.pending.erase sid } sid
  else (st, [])

/-- Interleaved actions of the server: an explicit create request, a
`connection.update` event for a session's socket, a pending reconnect timer
firing, and a delete request. -/
inductive Act
  | create (sid : String)
  | update (sid : String) (u : ConnUpdate)
  | fire (sid : String)
  | delete (sid : String) (logoutFails : Bool)
  deriving DecidableEq

/-- One interleaving step. -/
def step (st : ServerState) : Act → ServerState × List Effect
  | .create sid => let r := createRoute st sid; (r.1, r.2.2)
  | .update sid u => handlerStep st sid u
  | .fire sid => fireReconnect st sid
  | .delete sid f => ((deleteRoute st sid f).1, [])

/-- Run a list of actions from a state. -/
def run (st : ServerState) (acts : List Act) : ServerState :=
  acts.foldl (fun s a => (step s a).1) st

/-- A one-session state used in concrete witnesses: session `"s"` registered
with a fresh record, no pending timers. -/
def oneSessionState : ServerState where
  sessions := [("s", freshRecord "s")]
  globals := { connectionStatus := "disconnected", qrCode := none }
  pending := []

/-- A `connection.update` close with a transient reason
(`DisconnectReason.connectionLost` = 408). -/
def transient408 : ConnUpdate where
  qr := none
  connection := some ConnState.closed
  statusCode := some 408

/-- A `connection.update` close carrying `DisconnectReason.loggedOut`. -/
def loggedOutClose : ConnUpdate where
  qr := none
  connection := some ConnState.closed
  statusCode := some loggedOutCode

/-- The delete/reconnect race: create `"s"`, transient close (schedules the
3 s reconnect timer), successful delete, then the pending timer fires. -/
def raceTrace : List Act :=
  [Act.create "s", Act.update "s" transient408, Act.delete "s" false, Act.fire "s"]

/-- Stale-timer trace against the one-way terminal transition: create `"s"`;
transient close (schedules the 3 s timer); successful delete (the code keeps
no timer handle, so nothing is cancelled); create `"s"` again; logged-out
close (the terminal transition removes `"s"`). The earlier timer is still
pending. -/
def staleTimerTrace : List Act :=
  [Act.create "s", Act.update "s" transient408, Act.delete "s" false,
   Act.create "s", Act.update "s" loggedOutClose]

/-- The same race, stopped right after the delete. -/
def raceTraceBeforeFire : List Act :=
  [Act.create "s", Act.update "s" transient408, Act.delete "s" false]

/-- The state of the process right after startup's `initializeWhatsApp()` for
the `'default'` session: the record is stored with status `'connecting'`
while the `connectionStatus` global still holds its initial
`'disconnected'`. -/
def afterDefaultInit : ServerState := (initializeWhatsApp initialState "default").1

/-- A `connection.update` carrying only a QR refresh (no `connection` field),
as emitted on every QR rotation. -/
def qrOnlyUpdate : ConnUpdate where
  qr := some "2@XYZ"
  connection := none
  statusCode := none

/-- A `connection.update` carrying only `connection: 'open'`. -/
def openUpdate : ConnUpdate where
  qr := none
  connection := some ConnState.opened
  statusCode := none

/-- A default-session state in which the legacy globals mirror the record. -/
def mirroredDefaultState : ServerState where
  sessions := [("default", freshRecord "default")]
  globals := { connectionStatus := "connecting", qrCode := none }
  pending := []

theorem regHas_eq_isSome (r : Registry) (k : String) : regHas r k = (regGet r k).isSome := by
  induction r with
  | nil => rfl
  | cons p r ih =>
    by_cases h : p.1 = k
    · simp [regHas, regGet, h]
    · have hb : (p.1 == k) = false := by simpa using h
      simpa [regHas, regGet, h, hb] using ih

theorem regGet_regSetAll_self (r : Registry) (k : String) (v : SessionRec)
    (h : regHas r k = true) : regGet (regSetAll r k v) k = some v := by
  induction r with
  | nil => simp [regHas] at h
  | cons p r ih =>
    by_cases hp : p.1 = k
    · simp [regSetAll, regGet, hp]
    · have h' : regHas r k = true := by simpa [regHas, hp] using h
      simpa [regSetAll, regGet, hp] using ih h'

theorem regGet_regSetAll_ne (r : Registry) (k k' : String) (v : SessionRec)
    (h : k' ≠ k) : regGet (regSetAll r k v) k' = regGet r k' := by
  induction r with
  | nil => rfl
  | cons p r ih =>
    by_cases hp : p.1 = k
    · have hk : ¬ (k = k') := fun hh => h hh.symm
      have hp' : ¬ (p.1 = k') := fun hh => hk (hp ▸ hh)
      simpa [regSetAll, regGet, hp, hk, hp'] using ih
    · by_cases hp' : p.1 = k'
      · simp [regSetAll, regGet, hp, hp', h]
      · simpa [regSetAll, regGet, hp, hp'] using ih

theorem regGet_append_single_self (r : Registry) (k : String) (v : SessionRec)
    (h : regHas r k = false) : regGet (r ++ [(k, v)]) k = some v := by
  induction r with
  | nil => simp [regGet]
  | cons p r ih =>
    by_cases hp : p.1 = k
    · simp [regHas, hp] at h
    · have h' : regHas r k = false := by simpa [regHas, hp] using h
      simpa [regGet, hp] using ih h'

theorem regGet_append_single_ne (r : Registry) (k k' : String) (v : SessionRec)
    (h : k' ≠ k) : regGet (r ++ [(k, v)]) k' = regGet r k' := by
  induction r with
  | nil => simp [regGet, Ne.symm h]
  | cons p r ih =>
    by_cases hp : p.1 = k'
    · simp [regGet, hp]
    · simpa [regGet, hp] using ih

theorem regGet_regSet_self (r : Registry) (k : String) (v : SessionRec) :
    regGet (regSet r k v) k = some v := by
  by_cases h : regHas r k
  · simp [regSet, h, regGet_regSetAll_self r k v h]
  · have h' : regHas r k = false := by simpa using h
    simpa [regSet, h'] using regGet_append_single_self r k v h'

theorem regGet_regSet_ne (r : Registry) (k k' : String) (v : SessionRec) (h : k' ≠ k) :
    regGet (regSet r k v) k' = regGet r k' := by
  by_cases hh : regHas r k
  · simp [regSet, hh, regGet_regSetAll_ne r k k' v h]
  · have h' : regHas r k = false := by simpa using hh
    simpa [regSet, h'] using regGet_append_single_ne r k k' v h

theorem regGet_regDelete_self (r : Registry) (k : String) :
    regGet (regDelete r k) k = none := by
  induction r with
  | nil => rfl
  | cons p r ih =>
    by_cases hp : p.1 = k
    · simpa [regDelete, hp] using ih
    · simpa [regDelete, regGet, hp] using ih

theorem regGet_regDelete_ne (r : Registry) (k k' : String) (h : k' ≠ k) :
    regGet (regDelete r k) k' = regGet r k' := by
  induction r with
  | nil => rfl
  | cons p r ih =>
    by_cases hp : p.1 = k
    · simpa [regDelete, regGet, hp, Ne.symm h] using ih
    · by_cases hp' : p.1 = k'
      · simp [regDelete, regGet, hp, hp', h]
      · simpa [regDelete, regGet, hp, hp'] using ih

theorem regHas_regSet_self (r : Registry) (k : String) (v : SessionRec) :
    regHas (regSet r k v) k = true := by
  simp [regHas_eq_isSome, regGet_regSet_self]

theorem regHas_regSet_ne (r : Registry) (k k' : String) (v : SessionRec) (h : k' ≠ k) :
    regHas (regSet r k v) k' = regHas r k' := by
  simp [regHas_eq_isSome, regGet_regSet_ne r k k' v h]

theorem regHas_regDelete_self (r : Registry) (k : String) :
    regHas (regDelete r k) k = false := by
  simp [regHas_eq_isSome, regGet_regDelete_self]

theorem regHas_regDelete_ne (r : Registry) (k k' : String) (h : k' ≠ k) :
    regHas (regDelete r k) k' = regHas r k' := by
  simp [regHas_eq_isSome, regGet_regDelete_ne r k k' h]

/-- Session `sid` is fully gone: not registered and no reconnect timer pending. -/
def goneFor (st : ServerState) (sid : String) : Prop :=
  regHas st.sessions sid = false ∧ sid ∉ st.pending

theorem step_preserves_gone (st : ServerState) (sid : String) (a : Act)
    (hne : a ≠ Act.create sid) (h : goneFor st sid) : goneFor (step st a).1 sid := by
  obtain ⟨h1, h2⟩ := h
  cases a with
  | create sid' =>
    have hs : sid' ≠ sid := fun hh => hne (by rw [hh])
    by_cases hh : regHas st.sessions sid' = true
    · simpa [step, createRoute, hh, goneFor] using ⟨h1, h2⟩
    · have hh' : regHas st.sessions sid' = false := by simpa using hh
      refine ⟨?_, ?_⟩
      · simpa [step, createRoute, hh', initializeWhatsApp,
               regHas_regSet_ne st.sessions sid' sid _ (Ne.symm hs)] using h1
      · simpa [step, createRoute, hh', initializeWhatsApp] using h2
  | update sid' u =>
    rcases hreg : regGet st.sessions sid' with _ | rec
    · simpa [step, handlerStep, hreg, goneFor] using ⟨h1, h2⟩
    · have hs : sid' ≠ sid := by
        intro hh
        rw [hh] at hreg
        rw [regHas_eq_isSome, hreg] at h1
        simp at h1
      rcases u with ⟨uq, uc, usc⟩
      rcases uc with _ | c
      · refine ⟨?_, ?_⟩
        · simpa [step, handlerStep, hreg,
                 regHas_regSet_ne st.sessions sid' sid _ (Ne.symm hs)] using h1
        · simpa [step, handlerStep, hreg] using h2
      · cases c with
        | opened =>
          refine ⟨?_, ?_⟩
          · simpa [step, handlerStep, hreg,
                   regHas_regSet_ne st.sessions sid' sid _ (Ne.symm hs)] using h1
          · simpa [step, handlerStep, hreg] using h2
        | connecting =>
          refine ⟨?_, ?_⟩
          · simpa [step, handlerStep, hreg,
                   regHas_regSet_ne st.sessions sid' sid _ (Ne.symm hs)] using h1
          · simpa [step, handlerStep, hreg] using h2
        | closed =>
          by_cases hb : shouldReconnect ⟨uq, some .closed, usc⟩ = true
          · refine ⟨?_, ?_⟩
            · simpa [step, handlerStep, hreg, hb,
                     regHas_regSet_ne st.sessions sid' sid _ (Ne.symm hs)] using h1
            · simp only [step, handlerStep, hreg, hb]
              simpa [List.mem_append, Ne.symm hs] using h2
          · have hb' : shouldReconnect ⟨uq, some .closed, usc⟩ = false := by simpa using hb
            refine ⟨?_, ?_⟩
            · simpa [step, handlerStep, hreg, hb',
                     regHas_regDelete_ne st.sessions sid' sid (Ne.symm hs)] using h1
            · simpa [step, handlerStep, hreg, hb'] using h2
  | fire sid' =>
    by_cases hp : sid' ∈ st.pending
    · have hs : sid' ≠ sid := fun hh => h2 (hh ▸ hp)
      refine ⟨?_, ?_⟩
      · simpa [step, fireReconnect, hp, initializeWhatsApp,
               regHas_regSet_ne st.sessions sid' sid _ (Ne.symm hs)] using h1
      · intro hmem
        have hm : sid ∈ st.pending.erase sid' := by
          simpa [step, fireReconnect, hp, initializeWhatsApp] using hmem
        exact h2 (List.mem_of_mem_erase hm)
    · simpa [step, fireReconnect, hp] using ⟨h1, h2⟩
  | delete sid' f =>
    rcases hreg : regGet st.sessions sid' with _ | rec
    · simpa [step, deleteRoute, hreg, goneFor] using ⟨h1, h2⟩
    · have hs : sid' ≠ sid := by
        intro hh
        rw [hh] at hreg
        rw [regHas_eq_isSome, hreg] at h1
        simp at h1
      by_cases hf : (rec.hasSock && f) = true
      · simpa [step, deleteRoute, hreg, hf] using ⟨h1, h2⟩
      · have hf' : (rec.hasSock && f) = false := by simpa using hf
        refine ⟨?_, ?_⟩
        · simpa [step, deleteRoute, hreg, hf',
                 regHas_regDelete_ne st.sessions sid' sid (Ne.symm hs)] using h1
        · simpa [step, deleteRoute, hreg, hf'] using h2

theorem run_preserves_gone (st : ServerState) (sid : String) (acts : List Act)
    (hacts : Act.create sid ∉ acts) (h : goneFor st sid) : goneFor (run st acts) sid := by
  induction acts generalizing st with
  | nil => simpa [run] using h
  | cons a rest ih =>
    have ha : a ≠ Act.create sid := fun hh => hacts (by rw [hh]; exact List.mem_cons_self _ _)
    have hr : Act.create sid ∉ rest := fun hh => hacts (List.mem_cons_of_mem _ hh)
    simpa [run] using ih ((step st a).1) hr (step_preserves_gone st sid a ha ⟨h.1, h.2⟩)

end Server

namespace Claims

open Server

/-- C1 (code refutation): the logged-out close itself removes `"s"`, emits
the `disconnected` webhook with the reason, and schedules nothing — but the
"never re-appears without an explicit create" part is false. On the
stale-timer trace (create; transient close, scheduling the 3 s timer;
successful delete, which cancels nothing; create again; logged-out close,
which removes `"s"`), the timer from the earlier transient close is still
pending, and when it fires — a continuation containing no create —
`initializeWhatsApp` unconditionally re-inserts the terminally removed id. -/
theorem C1_stale_timer_resurrects_after_terminal_logout :
    regHas (run initialState staleTimerTrace).sessions "s" = false ∧
    Effect.webhookSent "disconnected" "s"
        (WebhookData.disconnectReason (some loggedOutCode)) ∈
      (step (run initialState (staleTimerTrace.take 4))
        (Act.update "s" loggedOutClose)).2 ∧
    (∀ d, Effect.reconnectScheduled "s" d ∉
      (step (run initialState (staleTimerTrace.take 4))
        (Act.update "s" loggedOutClose)).2) ∧
    "s" ∈ (run initialState staleTimerTrace).pending ∧
    Act.create "s" ∉ [Act.fire "s"] ∧
    regHas (run initialState (staleTimerTrace ++ [Act.fire "s"])).sessions "s" = true := by
  refine ⟨by decide, by decide, ?_, by decide, by decide, by decide⟩
  intro d
  have h2 : (step (run initialState (staleTimerTrace.take 4))
      (Act.update "s" loggedOutClose)).2 =
      [Effect.recordStatusSet "s" "disconnected",
       Effect.webhookSent "disconnected" "s"
         (WebhookData.disconnectReason (some loggedOutCode)),
       Effect.registryDeleted "s"] := by decide
  simp [h2]

/-- C2: a connection-close event with any non-logged-out reason (including an
absent reason) sets the session's status to `'disconnected'`, emits a
`disconnected` webhook event strictly before the reconnect is scheduled,
schedules the reconnect with the fixed 3000 ms backoff, and when that timer
fires the same session id re-enters `'connecting'` with credentials loaded
from its persisted auth folder. -/
theorem C2_transient_close_schedules_reconnect (st : ServerState) (sid : String)
    (u : ConnUpdate) (rec : SessionRec)
    (hreg : regGet st.sessions sid = some rec)
    (hc : u.connection = some ConnState.closed)
    (hsc : u.statusCode ≠ some loggedOutCode) :
    ((regGet (step st (Act.update sid u)).1.sessions sid).map SessionRec.status =
        some "disconnected") ∧
    (∃ i j : Nat, i < j ∧
      (step st (Act.update sid u)).2[i]? =
        some (Effect.webhookSent "disconnected" sid
          (WebhookData.disconnectReason u.statusCode)) ∧
      (step st (Act.update sid u)).2[j]? = some (Effect.reconnectScheduled sid 3000)) ∧
    sid ∈ (step st (Act.update sid u)).1.pending ∧
    (regGet (step (step st (Act.update sid u)).1 (Act.fire sid)).1.sessions sid =
        some (freshRecord sid)) ∧
    (freshRecord sid).id = sid ∧ (freshRecord sid).status = "connecting" ∧
    Effect.credsLoaded (authFolder sid) ∈
      (step (step st (Act.update sid u)).1 (Act.fire sid)).2 := by
  rcases u with ⟨uq, uc, usc⟩
  cases hc
  have hsr : shouldReconnect ⟨uq, some ConnState.closed, usc⟩ = true := by
    simpa [shouldReconnect, bne_iff_ne] using hsc
  have hmem : sid ∈ (step st (Act.update sid ⟨uq, some ConnState.closed, usc⟩)).1.pending := by
    simp [step, handlerStep, hreg, hsr]
  refine ⟨?_, ?_, hmem, ?_, rfl, rfl, ?_⟩
  · rcases uq with _ | q <;>
      simp [step, handlerStep, hreg, hsr, regGet_regSet_self]
  · rcases uq with _ | q
    · exact ⟨1, 2, by omega, by simp [step, handlerStep, hreg, hsr],
        by simp [step, handlerStep, hreg, hsr]⟩
    · exact ⟨3, 4, by omega, by simp [step, handlerStep, hreg, hsr],
        by simp [step, handlerStep, hreg, hsr]⟩
  · have hmem' : sid ∈ (handlerStep st sid
        ⟨uq, some ConnState.closed, usc⟩).1.pending := by simpa [step] using hmem
    simp [step, fireReconnect, hmem', initializeWhatsApp, regGet_regSet_self]
  · have hmem' : sid ∈ (handlerStep st sid
        ⟨uq, some ConnState.closed, usc⟩).1.pending := by simpa [step] using hmem
    simp [step, fireReconnect, hmem', initializeWhatsApp]

/-- Witness for C2: concrete session `"s"`, close with status code 408
(connection lost). -/
theorem C2_transient_close_schedules_reconnect_witness :
    "s" ∈ (step oneSessionState (Act.update "s" transient408)).1.pending :=
  (C2_transient_close_schedules_reconnect oneSessionState "s" transient408
    (freshRecord "s") (by decide) rfl (by decide)).2.2.1

/-- C3 (code refutation): the delete/reconnect race resurrects the deleted
session. After create `"s"`, a transient close (which schedules the fixed
3 s reconnect timer) and a successful DELETE, the id is gone from the
registry — but the timer is still pending, and when it fires,
`initializeWhatsApp` re-inserts `"s"` unconditionally: deletion sets no
"closing" mark and the racing reconnect does not abort. -/
theorem C3_race_resurrects_deleted_session :
    regHas (run initialState raceTraceBeforeFire).sessions "s" = false ∧
    "s" ∈ (run initialState raceTraceBeforeFire).pending ∧
    regHas (run initialState raceTrace).sessions "s" = true := by decide

/-- C4 counterexample: creating session `"s1"` in an empty registry stores a
record whose `status` field is `'connecting'`, not `'initializing'`; only the
HTTP response body claims `'initializing'`. -/
theorem C4_created_record_status_is_connecting :
    ((regGet (createRoute initialState "s1").1.sessions "s1").map SessionRec.status =
      some "connecting") ∧
    ((regGet (createRoute initialState "s1").1.sessions "s1").map SessionRec.status ≠
      some "initializing") ∧
    (createRoute initialState "s1").2.1.bodyStatus = some "initializing" := by decide

/-- C4 amended: create fails with 409 (AlreadyExists) when the id is present,
leaving the whole state unchanged; otherwise it stores a fresh record whose
status is `'connecting'` (the response body reports `'initializing'`),
answers 200, and leaves every other registry key untouched. -/
theorem C4_create_amended (st : ServerState) (sid : String) :
    (regHas st.sessions sid = true →
      (createRoute st sid).1 = st ∧ (createRoute st sid).2.1.code = 409) ∧
    (regHas st.sessions sid = false →
      (createRoute st sid).2.1.code = 200 ∧
      (createRoute st sid).2.1.bodyStatus = some "initializing" ∧
      regGet (createRoute st sid).1.sessions sid = some (freshRecord sid) ∧
      (freshRecord sid).status = "connecting" ∧
      ∀ k, k ≠ sid → regGet (createRoute st sid).1.sessions k = regGet st.sessions k) := by
  constructor
  · intro h
    simp [createRoute, h]
  · intro h
    refine ⟨?_, ?_, ?_, rfl, ?_⟩
    · simp [createRoute, h]
    · simp [createRoute, h]
    · simp [createRoute, h, initializeWhatsApp, regGet_regSet_self]
    · intro k hk
      simp [createRoute, h, initializeWhatsApp]
      exact regGet_regSet_ne _ _ _ _ hk

/-- Witness for C4 amended: 409 on the occupied id, 200 on the free one. -/
theorem C4_create_amended_witness :
    (createRoute oneSessionState "s").2.1.code = 409 ∧
    (createRoute initialState "s").2.1.code = 200 :=
  ⟨((C4_create_amended oneSessionState "s").1 (by decide)).2,
   ((C4_create_amended initialState "s").2 (by decide)).1⟩

/-- C5 counterexample: when `session.sock.logout()` rejects, the route's catch
answers 500 — the failure is propagated to the caller — and the
`sessions.delete` line is never reached, so the record stays registered. -/
theorem C5_logout_error_propagates_and_keeps_record :
    (deleteRoute oneSessionState "s" true).2.code = 500 ∧
    regHas (deleteRoute oneSessionState "s" true).1.sessions "s" = true := by decide

/-- C5 amended: delete answers 404 (NotFound) with no side effects when the id
is absent; otherwise it calls logout — if logout rejects, the error is caught
and surfaced as a 500 and the record is NOT removed; only when logout does
not reject is the record removed (other entries untouched) with a 200. -/
theorem C5_delete_amended (st : ServerState) (sid : String) (logoutFails : Bool) :
    (regGet st.sessions sid = none →
      deleteRoute st sid logoutFails = (st, { code := 404, bodyStatus := none })) ∧
    (∀ rec, regGet st.sessions sid = some rec →
      (rec.hasSock = true → logoutFails = true →
        (deleteRoute st sid logoutFails).1 = st ∧
        (deleteRoute st sid logoutFails).2.code = 500) ∧
      ((rec.hasSock && logoutFails) = false →
        (deleteRoute st sid logoutFails).2.code = 200 ∧
        regGet (deleteRoute st sid logoutFails).1.sessions sid = none ∧
        ∀ k, k ≠ sid →
          regGet (deleteRoute st sid logoutFails).1.sessions k = regGet st.sessions k)) := by
  constructor
  · intro h
    simp [deleteRoute, h]
  · intro rec h
    constructor
    · intro h1 h2
      simp [deleteRoute, h, h1, h2]
    · intro h12
      refine ⟨?_, ?_, ?_⟩
      · simp [deleteRoute, h, h12]
      · simp [deleteRoute, h, h12, regGet_regDelete_self]
      · intro k hk
        simp [deleteRoute, h, h12]
        exact regGet_regDelete_ne _ _ _ hk

/-- Witness for C5 amended: 404 on the empty registry, 200 on a successful
logout+delete. -/
theorem C5_delete_amended_witness :
    deleteRoute initialState "s" false =
      (initialState, { code := 404, bodyStatus := none }) ∧
    (deleteRoute oneSessionState "s" false).2.code = 200 :=
  ⟨(C5_delete_amended initialState "s" false).1 (by decide),
   (((C5_delete_amended oneSessionState "s" false).2 (freshRecord "s")
      (by decide)).2 (by decide)).1⟩

/-- C6: after the handler processes any `connection.update` carrying a
connection state (a lifecycle transition), the session record — whenever it
is still registered — satisfies the invariant that a non-null `qrCode`
implies status ≠ `'connected'`; and the `'open'` transition always stores
status `'connected'` with `qrCode` cleared, whatever QR the same update may
carry. -/
theorem C6_qr_invariant (st : ServerState) (sid : String) (u : ConnUpdate)
    (rec : SessionRec) (c : ConnState)
    (hreg : regGet st.sessions sid = some rec)
    (hc : u.connection = some c) :
    (∀ rec', regGet (step st (Act.update sid u)).1.sessions sid = some rec' →
      rec'.qrCode ≠ none → rec'.status ≠ "connected") ∧
    (c = ConnState.opened →
      regGet (step st (Act.update sid u)).1.sessions sid =
        some { rec with qrCode := none, status := "connected" }) := by
  rcases u with ⟨uq, uc, usc⟩
  cases hc
  cases c with
  | opened =>
    constructor
    · intro rec' h' hq
      rcases uq with _ | q <;>
        simp [step, handlerStep, hreg, regGet_regSet_self] at h' <;>
        simp [← h'] at hq
    · intro _
      rcases uq with _ | q <;> simp [step, handlerStep, hreg, regGet_regSet_self]
  | closed =>
    refine ⟨?_, fun h => by cases h⟩
    intro rec' h' hq
    by_cases hb : shouldReconnect ⟨uq, some ConnState.closed, usc⟩ = true
    · rcases uq with _ | q <;>
        simp [step, handlerStep, hreg, hb, regGet_regSet_self] at h' <;>
        simp [← h']
    · have hb' : shouldReconnect ⟨uq, some ConnState.closed, usc⟩ = false := by simpa using hb
      rcases uq with _ | q <;>
        simp [step, handlerStep, hreg, hb', regGet_regDelete_self] at h'
  | connecting =>
    refine ⟨?_, fun h => by cases h⟩
    intro rec' h' hq
    rcases uq with _ | q <;>
      simp [step, handlerStep, hreg, regGet_regSet_self] at h' <;>
      simp [← h']

/-- Witness for C6 at the one-session state: an open transition clears the QR
and stores `'connected'`. -/
theorem C6_qr_invariant_witness :
    regGet (step oneSessionState (Act.update "s" openUpdate)).1.sessions "s" =
      some { freshRecord "s" with qrCode := none, status := "connected" } :=
  (C6_qr_invariant oneSessionState "s" openUpdate (freshRecord "s")
    ConnState.opened (by decide) rfl).2 rfl

/-- C9 counterexample: a message from another party (`fromMe = false`) whose
content is null is NOT republished — `messages.upsert` emits no `message`
webhook for it, although the claim demands exactly one for every non-own
message. -/
theorem C9_contentless_inbound_not_republished :
    Messages.contentlessInbound.key.fromMe = false ∧
    Messages.messagesUpsertHandler [Messages.contentlessInbound] = [] := by decide

/-- C9 amended: the handler emits, in order, exactly one `message` webhook per
message that is both not authored by this session (`!fromMe`) and carries
non-null content; own-authored messages and content-less messages are never
republished; the payload carries the key, content, timestamp and sender
display name. -/
theorem C9_upsert_amended (msgs : List Messages.WAMessage) :
    Messages.messagesUpsertHandler msgs = msgs.filterMap Messages.upsertEmit ∧
    (∀ m : Messages.WAMessage,
      (m.key.fromMe = true → Messages.upsertEmit m = none) ∧
      (m.message = none → Messages.upsertEmit m = none) ∧
      (∀ c, m.key.fromMe = false → m.message = some c →
        Messages.upsertEmit m =
          some { key := m.key, message := c,
                 messageTimestamp := m.messageTimestamp,
                 pushName := m.pushName })) := by
  constructor
  · induction msgs with
    | nil => rfl
    | cons m rest ih =>
      cases h : Messages.upsertEmit m <;>
        simp [Messages.messagesUpsertHandler, h, List.filterMap_cons, ih]
  · intro m
    refine ⟨?_, ?_, ?_⟩
    · intro h
      simp [Messages.upsertEmit, h]
    · intro h
      cases hb : m.key.fromMe <;> simp [Messages.upsertEmit, h, hb]
    · intro c h1 h2
      simp [Messages.upsertEmit, h1, h2]

/-- Witness for C9 amended at concrete messages: the content-less inbound
message emits nothing; the contentful one emits its payload. -/
theorem C9_upsert_amended_witness :
    Messages.upsertEmit Messages.contentlessInbound = none ∧
    Messages.upsertEmit Messages.contentfulInbound =
      some { key := Messages.contentfulInbound.key, message := "hello",
             messageTimestamp := 7,
             pushName := some "Bob" } :=
  ⟨((C9_upsert_amended []).2 Messages.contentlessInbound).2.1 rfl,
   ((C9_upsert_amended []).2 Messages.contentfulInbound).2.2 "hello" rfl rfl⟩

/-- C10 counterexample: right after `initializeWhatsApp('default')` stores the
record with status `'connecting'`, the `connectionStatus` global still holds
its initial `'disconnected'` (record creation never writes it). The handler
run on a QR-only update copies the QR into both mirrors but leaves the
statuses as they were — so after this handler execution the global does not
equal the record's status. -/
theorem C10_qr_only_update_leaves_status_mismatch :
    ((regGet (step afterDefaultInit
        (Act.update "default" qrOnlyUpdate)).1.sessions "default").map
          SessionRec.status = some "connecting") ∧
    (step afterDefaultInit
        (Act.update "default" qrOnlyUpdate)).1.globals.connectionStatus =
      "disconnected" ∧
    some (step afterDefaultInit
        (Act.update "default" qrOnlyUpdate)).1.globals.connectionStatus ≠
      ((regGet (step afterDefaultInit
        (Act.update "default" qrOnlyUpdate)).1.sessions "default").map
          SessionRec.status) := by decide

/-- C10 amended: every branch of the `connection.update` handler writes the
`'default'` record and the legacy globals identically, so the handler
PRESERVES the mirror: if `connectionStatus` and the `qrCode` global equal the
record's fields before an execution, they still do after it (whenever the
record is still registered). The unconditional claim fails only because
record creation initializes the record to `'connecting'` without touching
the global. -/
theorem C10_mirror_preserved (st : ServerState) (u : ConnUpdate) (rec : SessionRec)
    (hreg : regGet st.sessions "default" = some rec)
    (hst : st.globals.connectionStatus = rec.status)
    (hqr : st.globals.qrCode = rec.qrCode) :
    ∀ rec', regGet (step st (Act.update "default" u)).1.sessions "default" = some rec' →
      (step st (Act.update "default" u)).1.globals.connectionStatus = rec'.status ∧
      (step st (Act.update "default" u)).1.globals.qrCode = rec'.qrCode := by
  rcases u with ⟨uq, uc, usc⟩
  rcases uc with _ | c
  · intro rec' h'
    rcases uq with _ | q <;>
      simp [step, handlerStep, hreg, regGet_regSet_self] at h' <;>
      simp [step, handlerStep, hreg, ← h', hst, hqr]
  · cases c with
    | opened =>
      intro rec' h'
      rcases uq with _ | q <;>
        simp [step, handlerStep, hreg, regGet_regSet_self] at h' <;>
        simp [step, handlerStep, hreg, ← h']
    | connecting =>
      intro rec' h'
      rcases uq with _ | q <;>
        simp [step, handlerStep, hreg, regGet_regSet_self] at h' <;>
        simp [step, handlerStep, hreg, ← h', hqr]
    | closed =>
      intro rec' h'
      by_cases hb : shouldReconnect ⟨uq, some ConnState.closed, usc⟩ = true
      · rcases uq with _ | q <;>
          simp [step, handlerStep, hreg, hb, regGet_regSet_self] at h' <;>
          simp [step, handlerStep, hreg, hb, ← h', hqr]
      · have hb' : shouldReconnect ⟨uq, some ConnState.closed, usc⟩ = false := by
          simpa using hb
        rcases uq with _ | q <;>
          simp [step, handlerStep, hreg, hb', regGet_regDelete_self] at h'

/-- Witness for C10 amended at a mirrored concrete state: the open transition
keeps the global equal to the new record status `'connected'`. -/
theorem C10_mirror_preserved_witness :
    (step mirroredDefaultState
        (Act.update "default" openUpdate)).1.globals.connectionStatus =
      ({ freshRecord "default" with qrCode := none, status := "connected" } :
        SessionRec).status :=
  (C10_mirror_preserved mirroredDefaultState openUpdate (freshRecord "default")
    (by decide) (by decide) (by decide) _ (by decide)).1

set_option maxRecDepth 1000000 in
/-- C7: `sendWebhook` builds the envelope `\x7bsessionId, event, data,
timestamp\x7d`, POSTs its JSON serialization to the configured URL with a
5-second timeout, and sets `x-webhook-signature` to the hex HMAC-SHA256 of
the serialized envelope under the configured shared secret; for the server's
default secret and a concrete `qr` envelope this digest equals the
independently computed reference HMAC-SHA256 hex digest. -/
theorem C7_webhook_envelope_and_signature :
    (∀ (cfg : Webhook.WebhookConfig) (event dataJson sessionId ts : String),
      (Webhook.buildRequest cfg event dataJson sessionId ts).url = cfg.url ∧
      (Webhook.buildRequest cfg event dataJson sessionId ts).body =
        Webhook.envelopeJson sessionId event dataJson ts ∧
      (Webhook.buildRequest cfg event dataJson sessionId ts).signatureHeader =
        Crypto.hmacSha256Hex cfg.secret
          (Webhook.buildRequest cfg event dataJson sessionId ts).body ∧
      (Webhook.buildRequest cfg event dataJson sessionId ts).timeoutMs = 5000) ∧
    Crypto.hmacSha256Hex Webhook.defaultConfig.secret
        (Webhook.envelopeJson "default" "qr" "\x7b\"qr\":\"2@ABC\"\x7d"
          "2026-01-01T00:00:00.000Z") =
      "284685a8dccd73e86d8fdb748ebb2e2c984db287e606fd7854fc0c3895dcc90e" := by
  refine ⟨fun cfg e d sid ts => ⟨rfl, rfl, rfl, rfl⟩, ?_⟩
  decide

/-- C8: webhook dispatch is fire-and-forget: for every configuration, event,
payload, session id and delivery outcome (2xx, timeout, connection refused,
non-2xx), `sendWebhook` returns normally (`Except.ok`, never an error),
makes exactly one POST attempt — the signed request of C7 — and on failure
only logs. -/
theorem C8_dispatch_never_throws (cfg : Webhook.WebhookConfig)
    (event dataJson sessionId ts : String) (out : Webhook.DeliveryOutcome) :
    ∃ r, Webhook.sendWebhook cfg event dataJson sessionId ts out = Except.ok r ∧
      r.attempts = 1 ∧
      r.request = Webhook.buildRequest cfg event dataJson sessionId ts ∧
      (out.isFailure = true → r.logLine = "Failed to send webhook") := by
  cases out with
  | delivered s =>
    exact ⟨_, rfl, rfl, rfl, by simp [Webhook.DeliveryOutcome.isFailure]⟩
  | timeout => exact ⟨_, rfl, rfl, rfl, fun _ => rfl⟩
  | connectionRefused => exact ⟨_, rfl, rfl, rfl, fun _ => rfl⟩
  | httpError s => exact ⟨_, rfl, rfl, rfl, fun _ => rfl⟩

/-- Witness for C8 at a concrete timed-out dispatch: no exception, one
attempt, failure logged. -/
theorem C8_dispatch_never_throws_witness :
    ∃ r, Webhook.sendWebhook Webhook.defaultConfig "message" "1" "default" "t"
        Webhook.DeliveryOutcome.timeout = Except.ok r ∧
      r.attempts = 1 ∧ r.logLine = "Failed to send webhook" := by
  obtain ⟨r, h1, h2, h3, h4⟩ := C8_dispatch_never_throws Webhook.defaultConfig
    "message" "1" "default" "t" Webhook.DeliveryOutcome.timeout
  exact ⟨r, h1, h2, h4 rfl⟩

end Claims
